import Mathlib

/-!
Verification of `saleor/warehouse/availability.py`.

The module computes available-to-promise quantities over stock records,
allocations and time-bound reservations, and raises a structured
`InsufficientStock` signal when a requested quantity cannot be met.

The upstream query layer (stock fetching scoped to country/channel, the
`annotate_available_quantity` / `not_expired` / `exclude_checkout_lines`
queryset helpers, and the `InsufficientStockData` dataclass) lives outside
this module's source; those parts are modelled from the spec, as marked on
each definition.  Everything else is a direct embedding of the source:
querysets become lists, ORM aggregates become list sums, Python `dict` /
`defaultdict(int)` become functions built by left folds, and the reference
to the undefined name `current_checkout_lines` in `get_reserved_quantity_bulk`
(a `NameError` at run time) is modelled as an `Except.error`.
-/

set_option linter.unusedVariables false

/-- An allocation row attached to a stock record (`allocations__quantity_allocated`). -/
structure Allocation where
  quantity_allocated : Int
deriving Repr, DecidableEq

/-- A stock record: per-location on-hand quantity for one product variant. -/
structure Stock where
  id : Nat
  product_variant_id : Nat
  quantity : Int
  allocations : List Allocation
deriving Repr, DecidableEq

/-- A sellable product variant (`pk`, `track_inventory`). -/
structure ProductVariant where
  pk : Nat
  track_inventory : Bool
deriving Repr, DecidableEq

/-- A checkout line: identity plus requested quantity. -/
structure CheckoutLine where
  id : Nat
  quantity : Int
deriving Repr, DecidableEq

/-- A checkout line info wrapper exposing `variant` and `line` (as used by
the bulk check: `line.variant.pk`, `line.line.quantity`). -/
structure CheckoutLineInfo where
  variant : ProductVariant
  line : CheckoutLine
deriving Repr, DecidableEq

/-- A reservation row: a time-bound hold of stock for a checkout line. -/
structure Reservation where
  stock_id : Nat
  quantity_reserved : Int
  expires_at : Nat
  checkout_line_id : Option Nat
deriving Repr, DecidableEq

/-- Modelled from the spec: `InsufficiencyRecord` is `item` plus
`availableQuantity`, the best-known available amount, 0 if no stock rows
exist at all (the `InsufficientStockData` dataclass lives outside this
module's source; the single-item check constructs it without an explicit
`available_quantity`, so the spec's default 0 is used there). -/
structure InsufficientStockData where
  variant : ProductVariant
  available_quantity : Int
deriving Repr, DecidableEq

/-- Total allocated quantity of one stock record
(`Sum("allocations__quantity_allocated")` restricted to that record). -/
def Stock.allocated (s : Stock) : Int :=
  (s.allocations.map Allocation.quantity_allocated).sum

/-- Modelled from the spec: the `annotate_available_quantity` queryset helper
(outside this module's source) derives, per stock record, `onHand − allocated`. -/
def Stock.available_quantity (s : Stock) : Int :=
  s.quantity - s.allocated

/-- Modelled from the spec: the `not_expired` queryset helper (outside this
module's source) keeps exactly the active reservations, those with
`expiresAt > now`. -/
def not_expired (reservations : List Reservation) (now : Nat) : List Reservation :=
  reservations.filter (fun r => decide (now < r.expires_at))

/-- Modelled from the spec: the `exclude_checkout_lines` queryset helper
(outside this module's source) drops reservations whose checkout line is
among the given lines — exclusion is by checkout-line identity. -/
def exclude_checkout_lines (reservations : List Reservation)
    (lines : List CheckoutLine) : List Reservation :=
  reservations.filter (fun r => ! lines.any (fun l => r.checkout_line_id == some l.id))

/-- Embeds `get_reserved_quantity` (source lines 160–174): the sum of
`quantity_reserved` over reservations of the supplied stocks that are not
expired and do not belong to the given checkout lines. -/
def get_reserved_quantity (reservations : List Reservation) (stocks : List Stock)
    (lines : List CheckoutLine) (now : Nat) : Int :=
  ((exclude_checkout_lines
      (not_expired (reservations.filter
        (fun r => stocks.any (fun s => s.id == r.stock_id))) now)
      lines).map Reservation.quantity_reserved).sum

/-- The `total_quantity` aggregate of `_get_available_quantity`:
`Sum("quantity", distinct=True)` sums each distinct on-hand value once
across the joined rows. -/
def total_quantity_agg (stocks : List Stock) : Int :=
  ((stocks.map Stock.quantity).dedup).sum

/-- The `quantity_allocated` aggregate of `_get_available_quantity`:
`Sum("allocations__quantity_allocated")` over every allocation of every
supplied stock record. -/
def quantity_allocated_agg (stocks : List Stock) : Int :=
  (stocks.map Stock.allocated).sum

/-- Embeds `_get_available_quantity` (source lines 16–33): aggregate on-hand
and allocated quantities, subtract the reserved quantity (0 unless
`check_reservations`), floor at 0. -/
def get_available_quantity_core (reservations : List Reservation) (stocks : List Stock)
    (checkout_lines : List CheckoutLine) (check_reservations : Bool) (now : Nat) : Int :=
  let total_quantity := total_quantity_agg stocks
  let quantity_allocated := quantity_allocated_agg stocks
  let quantity_reserved :=
    if check_reservations then get_reserved_quantity reservations stocks checkout_lines now
    else 0
  max (total_quantity - quantity_allocated - quantity_reserved) 0

/-- Outcome of the single-item check: Python returns `None` or raises
`InsufficientStock` with a list of records. -/
inductive CheckResult where
  | ok
  | insufficientStock (items : List InsufficientStockData)
deriving Repr, DecidableEq

/-- Embeds `check_stock_quantity` (source lines 36–60).  The stock fetch
`Stock.objects.get_variant_stocks_for_country(...)` is out of scope; the
already-filtered stock records are taken as the `stocks` argument. -/
def check_stock_quantity (variant : ProductVariant) (quantity : Int)
    (stocks : List Stock) (reservations : List Reservation)
    (checkout_lines : List CheckoutLine) (check_reservations : Bool) (now : Nat) :
    CheckResult :=
  if variant.track_inventory then
    if stocks.isEmpty then
      CheckResult.insufficientStock [⟨variant, 0⟩]
    else
      let available_quantity :=
        get_available_quantity_core reservations stocks checkout_lines check_reservations now
      if quantity > available_quantity then
        CheckResult.insufficientStock [⟨variant, 0⟩]
      else CheckResult.ok
  else CheckResult.ok

/-- Embeds `is_product_in_stock` (source lines 150–157): Python `any` over
the annotated per-record available quantities; an integer is truthy iff it
is nonzero. -/
def is_product_in_stock (stocks : List Stock) : Bool :=
  stocks.any (fun s => s.available_quantity != 0)

/-- Embeds `get_reserved_quantity_bulk` (source lines 177–203).  With empty
`stocks` it returns the empty `defaultdict(int)` (every lookup 0).  With
non-empty `stocks` the body evaluates
`[line.line for line in current_checkout_lines]`, but `current_checkout_lines`
is defined nowhere in the module (the parameter is named `lines`), so the
call raises `NameError`; that is modelled as `Except.error ()`. -/
def get_reserved_quantity_bulk (reservations : List Reservation) (stocks : List Stock)
    (lines : List CheckoutLineInfo) (now : Nat) : Except Unit (Nat → Int) :=
  if stocks.isEmpty then Except.ok (fun _ => 0)
  else Except.error ()

/-- Embeds the dict comprehension of source lines 99–101:
`{line.variant.pk: line.line.quantity for line in existing_lines or []}`.
Later lines overwrite earlier ones for the same variant pk. -/
def variants_quantities (existing_lines : List CheckoutLineInfo) : Nat → Option Int :=
  existing_lines.foldl
    (fun m line => fun k => if k = line.variant.pk then some line.line.quantity else m k)
    (fun _ => none)

/-- Embeds source lines 103–104: when `replace` is false the requested
quantity is increased by the existing quantity for this variant
(`variants_quantities.get(variant.pk, 0)`); when `replace` is true it is
used as-is. -/
def adjusted_quantity (replace : Bool) (existing_lines : List CheckoutLineInfo)
    (pk : Nat) (quantity : Int) : Int :=
  if replace then quantity
  else quantity + (variants_quantities existing_lines pk).getD 0

/-- One iteration of the loop of source lines 102–128: adjust the quantity,
collect this variant's stock records, sum their annotated available
quantities, subtract this variant's reservations and floor at 0, then
record an insufficiency when there are no stock records at all, or (for a
tracked variant) when the adjusted quantity exceeds the available one. -/
def bulk_check_item (replace : Bool) (existing_lines : List CheckoutLineInfo)
    (all_variants_stocks : List Stock) (variant_reservations : Nat → Int)
    (p : ProductVariant × Int) : Option InsufficientStockData :=
  let variant := p.1
  let quantity := adjusted_quantity replace existing_lines variant.pk p.2
  let stocks := all_variants_stocks.filter (fun s => s.product_variant_id == variant.pk)
  let available_quantity :=
    max ((stocks.map Stock.available_quantity).sum - variant_reservations variant.pk) 0
  if stocks.isEmpty then
    some ⟨variant, available_quantity⟩
  else if variant.track_inventory then
    if quantity > available_quantity then some ⟨variant, available_quantity⟩
    else none
  else none

/-- Outcome of the bulk check: normal return, `InsufficientStock`, or the
`NameError` raised from `get_reserved_quantity_bulk`'s undefined name. -/
inductive BulkResult where
  | ok
  | insufficientStock (items : List InsufficientStockData)
  | nameError
deriving Repr, DecidableEq

/-- Embeds `check_stock_quantity_bulk` (source lines 63–131).  The stock
fetch `Stock.objects.for_country_and_channel(...).filter(...)` is out of
scope; the already-filtered records arrive as `all_variants_stocks`
(grouping by `product_variant_id` keeps arrival order, modelled by an
order-preserving filter in `bulk_check_item`).  With `check_reservations`
the reserved map comes from `get_reserved_quantity_bulk`, whose `NameError`
propagates; otherwise it is `defaultdict(int)`.  Insufficiencies are
appended in iteration order over `zip(variants, quantities)` and raised
only when the collected list is non-empty. -/
def check_stock_quantity_bulk (variants : List ProductVariant) (quantities : List Int)
    (all_variants_stocks : List Stock) (reservations : List Reservation)
    (existing_lines : List CheckoutLineInfo) (replace : Bool)
    (check_reservations : Bool) (now : Nat) : BulkResult :=
  match (if check_reservations then
          get_reserved_quantity_bulk reservations all_variants_stocks existing_lines now
        else Except.ok (fun _ => 0)) with
  | Except.error _ => BulkResult.nameError
  | Except.ok variant_reservations =>
    let insufficient_stocks :=
      (variants.zip quantities).filterMap
        (bulk_check_item replace existing_lines all_variants_stocks variant_reservations)
    if insufficient_stocks.isEmpty then BulkResult.ok
    else BulkResult.insufficientStock insufficient_stocks

/-- Claim C1.  `_get_available_quantity` returns
`max(totalOnHand − totalAllocated − reservedQuantity, 0)`, where the
reserved quantity is `get_reserved_quantity` when `check_reservations` and 0
otherwise; in particular the result is never negative, and with
`check_reservations = false` it is `max(totalOnHand − totalAllocated, 0)`. -/
theorem get_available_quantity_core_spec (reservations : List Reservation)
    (stocks : List Stock) (checkout_lines : List CheckoutLine)
    (check_reservations : Bool) (now : Nat) :
    get_available_quantity_core reservations stocks checkout_lines check_reservations now
      = max (total_quantity_agg stocks - quantity_allocated_agg stocks -
          (if check_reservations then
            get_reserved_quantity reservations stocks checkout_lines now
          else 0)) 0
    ∧ 0 ≤ get_available_quantity_core reservations stocks checkout_lines
        check_reservations now
    ∧ get_available_quantity_core reservations stocks checkout_lines false now
      = max (total_quantity_agg stocks - quantity_allocated_agg stocks) 0 := by
  refine ⟨rfl, le_max_right _ _, ?_⟩
  simp [get_available_quantity_core]

/-- Claim C2 (code bug, evaluated at a failing input).  A bulk check with
`check_reservations` enabled, one stock record and one existing line does
not exclude the existing line's reservations: it aborts with the
`NameError` raised by `get_reserved_quantity_bulk`'s reference to the
undefined name `current_checkout_lines`. -/
theorem check_stock_quantity_bulk_name_error :
    check_stock_quantity_bulk [⟨1, true⟩] [1] [⟨1, 1, 5, []⟩] []
      [⟨⟨1, true⟩, ⟨7, 2⟩⟩] false true 0 = BulkResult.nameError := rfl

/-- Claim C3.  The single-item check fails exactly when the variant tracks
inventory and either no stock record exists or the requested quantity
exceeds the computed available quantity; in particular an untracked
variant always succeeds, even with an empty stock set. -/
theorem check_stock_quantity_spec (variant : ProductVariant) (quantity : Int)
    (stocks : List Stock) (reservations : List Reservation)
    (checkout_lines : List CheckoutLine) (check_reservations : Bool) (now : Nat) :
    check_stock_quantity variant quantity stocks reservations checkout_lines
        check_reservations now ≠ CheckResult.ok
      ↔ variant.track_inventory = true
        ∧ (stocks = []
           ∨ quantity > get_available_quantity_core reservations stocks checkout_lines
               check_reservations now) := by
  unfold check_stock_quantity
  cases h : variant.track_inventory with
  | false => simp
  | true =>
    cases stocks with
    | nil => simp
    | cons s rest =>
      by_cases hq : quantity > get_available_quantity_core reservations (s :: rest)
          checkout_lines check_reservations now
      · simp [hq, List.isEmpty]
      · simp [hq, List.isEmpty]

/-- Claim C7 (code bug, evaluated at the failing input).  On a stock with
one active reservation of quantity 3 (expires at 10 > now 5) and one
expired reservation of quantity 5 (expires at 0 ≤ now 5), the scalar
aggregator sums only the active one and returns 3; the bulk aggregator on
the very same inputs produces no per-item totals at all — it raises
`NameError` (undefined name `current_checkout_lines`). -/
theorem reserved_quantity_expiry_eval :
    get_reserved_quantity [⟨1, 3, 10, none⟩, ⟨1, 5, 0, none⟩] [⟨1, 1, 7, []⟩] [] 5 = 3
    ∧ get_reserved_quantity_bulk [⟨1, 3, 10, none⟩, ⟨1, 5, 0, none⟩] [⟨1, 1, 7, []⟩] [] 5
      = Except.error () := ⟨rfl, rfl⟩

/-- Claim C8 (counterexample).  One stock record with on-hand 0 and a single
allocation of 5: no record has on-hand strictly greater than allocated,
yet `is_product_in_stock` returns true, because the annotated available
quantity −5 is a nonzero integer and therefore truthy under Python `any`. -/
theorem is_product_in_stock_counterexample :
    is_product_in_stock [⟨1, 1, 0, [⟨5⟩]⟩] = true
    ∧ ¬ ∃ s ∈ [(⟨1, 1, 0, [⟨5⟩]⟩ : Stock)], Stock.allocated s < s.quantity := by
  refine ⟨rfl, ?_⟩
  decide

/-- Claim C8 (amended).  `is_product_in_stock` returns true iff at least one
supplied stock record has on-hand different from allocated (a nonzero net
availability — an over-allocated record also counts); consequently it is
false for an empty, all-zero, or exactly fully-allocated set. -/
theorem is_product_in_stock_iff (stocks : List Stock) :
    is_product_in_stock stocks = true ↔ ∃ s ∈ stocks, s.quantity ≠ Stock.allocated s := by
  simp [is_product_in_stock, Stock.available_quantity, sub_ne_zero]

/-- When a bulk check does not hit the `NameError`, the reserved map it uses
is the all-zero map (either `check_reservations` is off, or every lookup in
the empty `defaultdict` is 0), so the result is determined by the collected
per-item insufficiencies. -/
theorem check_stock_quantity_bulk_eq_of_ne_nameError (variants : List ProductVariant)
    (quantities : List Int) (all_variants_stocks : List Stock)
    (reservations : List Reservation) (existing_lines : List CheckoutLineInfo)
    (replace check_reservations : Bool) (now : Nat)
    (hne : check_stock_quantity_bulk variants quantities all_variants_stocks reservations
        existing_lines replace check_reservations now ≠ BulkResult.nameError) :
    check_stock_quantity_bulk variants quantities all_variants_stocks reservations
        existing_lines replace check_reservations now
      = (if ((variants.zip quantities).filterMap
              (bulk_check_item replace existing_lines all_variants_stocks
                (fun _ => 0))).isEmpty
         then BulkResult.ok
         else BulkResult.insufficientStock
            ((variants.zip quantities).filterMap
              (bulk_check_item replace existing_lines all_variants_stocks
                (fun _ => 0)))) := by
  unfold check_stock_quantity_bulk get_reserved_quantity_bulk at *
  cases check_reservations with
  | false => simp
  | true =>
    cases h : all_variants_stocks.isEmpty with
    | true => simp [h]
    | false => simp [h] at hne

/-- Claim C4.  In the bulk check, a variant with zero stock records is
recorded as insufficient whatever its `track_inventory` flag, while the
quantity comparison runs only for tracked variants: an untracked variant
with a non-empty stock set succeeds for every requested quantity, even one
exceeding the available quantity. -/
theorem check_stock_quantity_bulk_tracking (variant : ProductVariant) (quantity : Int)
    (all_variants_stocks : List Stock) (reservations : List Reservation)
    (existing_lines : List CheckoutLineInfo) (replace check_reservations : Bool)
    (now : Nat)
    (hne : check_stock_quantity_bulk [variant] [quantity] all_variants_stocks reservations
        existing_lines replace check_reservations now ≠ BulkResult.nameError) :
    (all_variants_stocks.filter (fun s => s.product_variant_id == variant.pk) = [] →
      check_stock_quantity_bulk [variant] [quantity] all_variants_stocks reservations
          existing_lines replace check_reservations now
        = BulkResult.insufficientStock [⟨variant, 0⟩])
    ∧ (variant.track_inventory = false →
       all_variants_stocks.filter (fun s => s.product_variant_id == variant.pk) ≠ [] →
       check_stock_quantity_bulk [variant] [quantity] all_variants_stocks reservations
          existing_lines replace check_reservations now = BulkResult.ok) := by
  have h := check_stock_quantity_bulk_eq_of_ne_nameError [variant] [quantity]
    all_variants_stocks reservations existing_lines replace check_reservations now hne
  constructor
  · intro hs
    rw [h]
    simp [bulk_check_item, hs]
  · intro ht hs
    rw [h]
    simp [bulk_check_item, hs, ht]

/-- Claim C4 witness: a tracked variant with no stock rows is insufficient
with available quantity 0, and an untracked variant whose single stock row
has on-hand 3 succeeds for a request of 100. -/
theorem check_stock_quantity_bulk_tracking_witness :
    check_stock_quantity_bulk [⟨1, true⟩] [5] [] [] [] false false 0
      = BulkResult.insufficientStock [⟨⟨1, true⟩, 0⟩]
    ∧ check_stock_quantity_bulk [⟨2, false⟩] [100] [⟨1, 2, 3, []⟩] [] [] false false 0
      = BulkResult.ok :=
  ⟨(check_stock_quantity_bulk_tracking ⟨1, true⟩ 5 [] [] [] false false 0
      (by decide)).1 (by decide),
   (check_stock_quantity_bulk_tracking ⟨2, false⟩ 100 [⟨1, 2, 3, []⟩] [] [] false false 0
      (by decide)).2 rfl (by decide)⟩

/-- Claim C9.  An insufficiency record produced for an item with no stock
records at all carries `available_quantity = 0`, in both the single-item
check (where the record uses the spec's default 0) and the bulk check. -/
theorem insufficiency_record_zero_available (variant : ProductVariant) (quantity : Int)
    (reservations : List Reservation) (checkout_lines : List CheckoutLine)
    (all_variants_stocks : List Stock) (existing_lines : List CheckoutLineInfo)
    (replace check_reservations : Bool) (now : Nat)
    (htrack : variant.track_inventory = true)
    (hstocks : all_variants_stocks.filter (fun s => s.product_variant_id == variant.pk) = [])
    (hne : check_stock_quantity_bulk [variant] [quantity] all_variants_stocks reservations
        existing_lines replace check_reservations now ≠ BulkResult.nameError) :
    check_stock_quantity variant quantity [] reservations checkout_lines
        check_reservations now = CheckResult.insufficientStock [⟨variant, 0⟩]
    ∧ check_stock_quantity_bulk [variant] [quantity] all_variants_stocks reservations
        existing_lines replace check_reservations now
      = BulkResult.insufficientStock [⟨variant, 0⟩] := by
  constructor
  · simp [check_stock_quantity, htrack]
  · rw [check_stock_quantity_bulk_eq_of_ne_nameError [variant] [quantity]
      all_variants_stocks reservations existing_lines replace check_reservations now hne]
    simp [bulk_check_item, hstocks]

/-- Claim C9 witness: both checks, on a tracked variant with no stock rows,
report insufficiency with available quantity 0. -/
theorem insufficiency_record_zero_available_witness :
    check_stock_quantity ⟨3, true⟩ 1 [] [] [] false 0
      = CheckResult.insufficientStock [⟨⟨3, true⟩, 0⟩]
    ∧ check_stock_quantity_bulk [⟨3, true⟩] [1] [] [] [] false false 0
      = BulkResult.insufficientStock [⟨⟨3, true⟩, 0⟩] :=
  insufficiency_record_zero_available ⟨3, true⟩ 1 [] [] [] [] false false 0
    rfl (by decide) (by decide)

/-- Claim C6.  The bulk check collects an insufficiency record for every
insufficient item — one `filterMap` pass over `zip(variants, quantities)`
in supply order, so it never stops at the first — and raises the combined
failure exactly when the collected list is non-empty. -/
theorem check_stock_quantity_bulk_collects (variants : List ProductVariant)
    (quantities : List Int) (all_variants_stocks : List Stock)
    (reservations : List Reservation) (existing_lines : List CheckoutLineInfo)
    (replace check_reservations : Bool) (now : Nat)
    (hne : check_stock_quantity_bulk variants quantities all_variants_stocks reservations
        existing_lines replace check_reservations now ≠ BulkResult.nameError) :
    (check_stock_quantity_bulk variants quantities all_variants_stocks reservations
        existing_lines replace check_reservations now = BulkResult.ok
      ↔ (variants.zip quantities).filterMap
          (bulk_check_item replace existing_lines all_variants_stocks (fun _ => 0)) = [])
    ∧ ((variants.zip quantities).filterMap
          (bulk_check_item replace existing_lines all_variants_stocks (fun _ => 0)) ≠ [] →
       check_stock_quantity_bulk variants quantities all_variants_stocks reservations
          existing_lines replace check_reservations now
        = BulkResult.insufficientStock
            ((variants.zip quantities).filterMap
              (bulk_check_item replace existing_lines all_variants_stocks (fun _ => 0))))
    ∧ ∀ p ∈ variants.zip quantities, ∀ d,
        bulk_check_item replace existing_lines all_variants_stocks (fun _ => 0) p = some d →
        d ∈ (variants.zip quantities).filterMap
              (bulk_check_item replace existing_lines all_variants_stocks (fun _ => 0)) := by
  have h := check_stock_quantity_bulk_eq_of_ne_nameError variants quantities
    all_variants_stocks reservations existing_lines replace check_reservations now hne
  refine ⟨?_, ?_, ?_⟩
  · rw [h]
    by_cases he : ((variants.zip quantities).filterMap
        (bulk_check_item replace existing_lines all_variants_stocks (fun _ => 0))) = []
    · simp [he]
    · simp [he, List.isEmpty_iff]
  · intro hne2
    rw [h]
    simp [List.isEmpty_iff, hne2]
  · intro p hp d hd
    exact List.mem_filterMap.mpr ⟨p, hp, hd⟩

/-- Claim C6 witness: two tracked variants, each with one stock row of
on-hand 1, requested 5 and 7 — both shortfalls appear, in supply order, in
the single raised failure. -/
theorem check_stock_quantity_bulk_collects_witness :
    check_stock_quantity_bulk [⟨1, true⟩, ⟨2, true⟩] [5, 7]
        [⟨1, 1, 1, []⟩, ⟨2, 2, 1, []⟩] [] [] false false 0
      = BulkResult.insufficientStock [⟨⟨1, true⟩, 1⟩, ⟨⟨2, true⟩, 1⟩] :=
  ((check_stock_quantity_bulk_collects [⟨1, true⟩, ⟨2, true⟩] [5, 7]
      [⟨1, 1, 1, []⟩, ⟨2, 2, 1, []⟩] [] [] false false 0 (by decide)).2.1
    (by decide)).trans (by decide)

/-- The dict built at source lines 99–101 maps a variant pk to the quantity
of the last existing line with that pk (later dict insertions overwrite
earlier ones). -/
theorem variants_quantities_eq_getLast (ls : List CheckoutLineInfo) (pk : Nat) :
    variants_quantities ls pk
      = ((ls.filter (fun li => li.variant.pk == pk)).getLast?).map
          (fun li => li.line.quantity) := by
  induction ls using List.reverseRecOn with
  | nil => rfl
  | append_singleton ls l ih =>
    simp only [variants_quantities, List.foldl_append, List.foldl_cons, List.foldl_nil]
    simp only [variants_quantities] at ih
    by_cases h : l.variant.pk = pk
    · simp [List.filter_append, h, List.getLast?_concat]
    · have hpk : ¬ (pk = l.variant.pk) := fun hh => h hh.symm
      have hb : (l.variant.pk == pk) = false := by simpa using h
      simp [List.filter_append, hb, hpk, ih]

/-- Claim C5.  With `replace = true` the supplied quantity is used as-is;
with `replace = false` it is increased by the quantity of the variant's
existing line in `existing_lines` — by 0 when the variant has no existing
line. -/
theorem adjusted_quantity_spec (existing_lines : List CheckoutLineInfo) (pk : Nat)
    (quantity : Int) :
    adjusted_quantity true existing_lines pk quantity = quantity
    ∧ (existing_lines.filter (fun li => li.variant.pk == pk) = [] →
        adjusted_quantity false existing_lines pk quantity = quantity)
    ∧ ∀ l, existing_lines.filter (fun li => li.variant.pk == pk) = [l] →
        adjusted_quantity false existing_lines pk quantity = quantity + l.line.quantity := by
  refine ⟨rfl, ?_, ?_⟩
  · intro h
    simp [adjusted_quantity, variants_quantities_eq_getLast, h]
  · intro l h
    simp [adjusted_quantity, variants_quantities_eq_getLast, h]

/-- Claim C5 witness: an existing line of quantity 2 for variant 1 and a new
request of 3 give an effective quantity of 5 when `replace` is off, and 3
when `replace` is on. -/
theorem adjusted_quantity_spec_witness :
    adjusted_quantity false [⟨⟨1, true⟩, ⟨10, 2⟩⟩] 1 3 = 3 + 2
    ∧ adjusted_quantity true [⟨⟨1, true⟩, ⟨10, 2⟩⟩] 1 3 = 3 :=
  ⟨(adjusted_quantity_spec [⟨⟨1, true⟩, ⟨10, 2⟩⟩] 1 3).2.2 ⟨⟨1, true⟩, ⟨10, 2⟩⟩ (by decide),
   (adjusted_quantity_spec [⟨⟨1, true⟩, ⟨10, 2⟩⟩] 1 3).1⟩

/-- Claim C10.  With `replace = false`, when several existing lines share
the same variant pk only the last one's quantity is added: the dict
comprehension keeps the last occurrence, not the sum of all occurrences. -/
theorem adjusted_quantity_last_occurrence (ls1 ls2 : List CheckoutLineInfo)
    (l : CheckoutLineInfo) (pk : Nat) (quantity : Int)
    (hpk : l.variant.pk = pk)
    (h2 : ∀ li ∈ ls2, li.variant.pk ≠ pk) :
    adjusted_quantity false (ls1 ++ l :: ls2) pk quantity
      = quantity + l.line.quantity := by
  have hfilter2 : ls2.filter (fun li => li.variant.pk == pk) = [] := by
    refine List.filter_eq_nil_iff.mpr ?_
    intro a ha
    simpa using h2 a ha
  have hl : (l.variant.pk == pk) = true := by simpa using hpk
  have hstep : (ls1 ++ l :: ls2).filter (fun li => li.variant.pk == pk)
      = ls1.filter (fun li => li.variant.pk == pk) ++ [l] := by
    simp [List.filter_append, hl, hfilter2]
  simp [adjusted_quantity, variants_quantities_eq_getLast, hstep, List.getLast?_concat]

/-- Claim C10 witness: two existing lines for variant 1, quantities 2 then
9 — with a new request of 3 the effective quantity is 3 + 9 (the last
line's quantity, not the first and not the sum). -/
theorem adjusted_quantity_last_occurrence_witness :
    adjusted_quantity false [⟨⟨1, true⟩, ⟨10, 2⟩⟩, ⟨⟨1, true⟩, ⟨11, 9⟩⟩] 1 3 = 3 + 9 :=
  adjusted_quantity_last_occurrence [⟨⟨1, true⟩, ⟨10, 2⟩⟩] [] ⟨⟨1, true⟩, ⟨11, 9⟩⟩ 1 3
    rfl (by decide)
